import Mathlib

/-!
Verification of the arcade flow-analysis pipeline.

This file gives a shallow embedding of the repository's core logic:
`flow_parser.py` (trace decoding), `ai_summary_generator.py` (behavior
classification and LLM-response parsing) and `social_image_generator.py`
(brand / task-context extraction), and proves or refutes the specified
properties about them.

Python strings are modelled over their ASCII fragment (all string
constants in the source are ASCII); machine-level details such as the
OpenAI client object are modelled by passing the external response as an
explicit `Option String` input (`none` = the call raised).
-/

/-! ### Python string primitives (ASCII model) -/

/-- ASCII whitespace, the characters Python's `str.strip`/`str.split`
treat as whitespace. -/
def isSpaceChar (c : Char) : Bool :=
  c == ' ' || c == '\t' || c == '\n' || c == '\r' || c == '\x0b' || c == '\x0c'

/-- ASCII word character, the `\w` class of Python's `re` on ASCII text. -/
def isWordChar (c : Char) : Bool :=
  c.isAlpha || c.isDigit || c == '_'

/-- Python `str.lower` on a character list (ASCII). -/
def pyLowerL (s : List Char) : List Char :=
  s.map Char.toLower

/-- Python `str.lower` (ASCII). -/
def pyLower (s : String) : String :=
  ⟨pyLowerL s.data⟩

/-- Helper for `pyTitle`: the flag records whether the previous character
was alphabetic (cased). -/
def pyTitleAux : Bool → List Char → List Char
  | _, [] => []
  | prevCased, c :: cs =>
    if c.isAlpha then
      (if prevCased then c.toLower else c.toUpper) :: pyTitleAux true cs
    else
      c :: pyTitleAux false cs

/-- Python `str.title` on a character list (ASCII). -/
def pyTitle (s : List Char) : List Char :=
  pyTitleAux false s

/-- Python `str.strip` on a character list. -/
def stripL (s : List Char) : List Char :=
  ((s.dropWhile isSpaceChar).reverse.dropWhile isSpaceChar).reverse

/-- Python `str.strip`. -/
def pyStrip (s : String) : String :=
  ⟨stripL s.data⟩

/-- Python `str.split` with an explicit newline separator: empty pieces are
kept, so the result is always nonempty. -/
def splitNl : List Char → List (List Char)
  | [] => [[]]
  | c :: cs =>
    match splitNl cs with
    | [] => [[]]
    | piece :: rest =>
      if c == '\n' then [] :: piece :: rest
      else (c :: piece) :: rest

/-- Fuelled replace-all: Python `str.replace` for a nonempty pattern,
replacing non-overlapping occurrences left to right.  One unit of fuel is
spent per scanned position, so fuel equal to the length of the subject
suffices. -/
def replaceL (pat rep : List Char) : Nat → List Char → List Char
  | 0, s => s
  | _ + 1, [] => []
  | n + 1, c :: cs =>
    if !pat.isEmpty && pat.isPrefixOf (c :: cs) then
      rep ++ replaceL pat rep n ((c :: cs).drop pat.length)
    else
      c :: replaceL pat rep n cs

/-- Python `str.replace` (for the nonempty patterns used by the source). -/
def pyReplace (s pat rep : String) : String :=
  ⟨replaceL pat.data rep.data s.data.length s.data⟩

/-- Substring test on character lists: Python's `needle in hay`. -/
def isSubL (p : List Char) : List Char → Bool
  | [] => p.isEmpty
  | c :: cs => p.isPrefixOf (c :: cs) || isSubL p cs

/-- Python's `needle in hay` operator on strings. -/
def py_in (needle hay : String) : Bool :=
  isSubL needle.data hay.data

/-- Python `str.startswith` (list-based so that it evaluates inside the
kernel). -/
def pyStartsWith (s pre : String) : Bool :=
  pre.data.isPrefixOf s.data

/-- Helper for `splitWs`, accumulating the current (reversed) word. -/
def splitWsAux : List Char → List Char → List (List Char)
  | [], acc => if acc.isEmpty then [] else [acc.reverse]
  | c :: cs, acc =>
    if isSpaceChar c then
      if acc.isEmpty then splitWsAux cs []
      else acc.reverse :: splitWsAux cs []
    else
      splitWsAux cs (c :: acc)

/-- Python `str.split()` with no argument: split on runs of whitespace,
discarding empty pieces. -/
def splitWs (s : List Char) : List (List Char) :=
  splitWsAux s []

/-! ### Data model

Shallow embedding of the JSON records `flow_parser.py` reads.  Every field
the source accesses through `dict.get` is an `Option`; `none` models an
absent key. -/

/-- The `pageContext` record of an `IMAGE` step. -/
structure PageContext where
  url : Option String := none
  title : Option String := none
deriving Repr, DecidableEq

/-- The `clickContext` record of an `IMAGE` step. -/
structure ClickContext where
  text : Option String := none
  elementType : Option String := none
  cssSelector : Option String := none
deriving Repr, DecidableEq

/-- One entry of a step's `hotspots` list. -/
structure Hotspot where
  label : Option String := none
deriving Repr, DecidableEq

/-- One entry of the trace's `capturedEvents` list.  The parser only ever
reads `clickId` and `timeMs`; `eventType` and `value` model the payload of
a typing event, which the parser never consults. -/
structure CapturedEvent where
  clickId : Option String := none
  timeMs : Option Int := none
  eventType : Option String := none
  value : Option String := none
deriving Repr, DecidableEq

/-- One step record of the raw trace. -/
structure Step where
  type : Option String := none
  title : Option String := none
  subtitle : Option String := none
  id : Option String := none
  pageContext : Option PageContext := none
  clickContext : Option ClickContext := none
  hotspots : Option (List Hotspot) := none
deriving Repr, DecidableEq

/-- The raw trace document (`flow.json`).  `steps := none` models a trace
whose steps collection is structurally absent. -/
structure FlowData where
  name : Option String := none
  steps : Option (List Step) := none
  capturedEvents : Option (List CapturedEvent) := none
deriving Repr, DecidableEq

/-- The `UserAction` dataclass of `flow_parser.py`.  Fields the dataclass
defaults to `None` are `Option`s defaulting to `none`. -/
structure UserAction where
  step_number : Nat
  action_type : String
  description : String
  element_text : Option String := none
  element_type : Option String := none
  page_url : Option String := none
  page_title : Option String := none
  timestamp : Option Int := none
  css_selector : Option String := none
  hotspot_label : Option String := none
  raw_data : Option Step := none
deriving Repr, DecidableEq

namespace FlowParser

/-- Lookup in the `event_map` dict comprehension of `FlowParser.parse`:
only events with a truthy (non-`None`, nonempty) `clickId` enter the map,
and a later event with the same `clickId` overwrites an earlier one, so
lookup returns the last matching event. -/
def event_lookup (events : List CapturedEvent) (sid : String) : Option CapturedEvent :=
  (events.filter (fun e =>
    match e.clickId with
    | some c => !(c == "") && c == sid
    | none => false)).getLast?

/-- The `_parse_chapter_step` method.  The source reads `subtitle` into a
local variable it never uses; both branches produce `action_type =
"navigate"`. -/
def _parse_chapter_step (step : Step) (step_number : Nat) : UserAction :=
  let title := step.title.getD ""
  if py_in "thank you" (pyLower title) || py_in "conclusion" (pyLower title) then
    { step_number := step_number
      action_type := "navigate"
      description := "Reached end screen: " ++ title
      raw_data := some step }
  else
    { step_number := step_number
      action_type := "navigate"
      description := "Started flow: " ++ title
      raw_data := some step }

/-- The `_determine_action_type_and_description` method, mirrored branch
by branch. -/
def _determine_action_type_and_description
    (element_text element_type hotspot_label page_url : String) : String × String :=
  let base_description :=
    if hotspot_label ≠ "" then hotspot_label
    else if element_text ≠ "" then "Clicked on " ++ element_text
    else "Performed action"
  if element_type == "button" then
    if py_in "cart" (pyLower element_text) then
      ("add_to_cart", "Added item to cart by clicking \x27" ++ element_text ++ "\x27")
    else if py_in "search" (pyLower element_text) then
      ("search", "Initiated search by clicking \x27" ++ element_text ++ "\x27")
    else
      ("click", "Clicked button \x27" ++ element_text ++ "\x27")
  else if element_type == "image" then
    if py_in "scooter" (pyLower element_text) then
      ("select_product", "Selected product: " ++ element_text)
    else if ["Blue", "Pink", "Red", "Black"].contains element_text then
      ("select_option", "Selected color option: " ++ element_text)
    else
      ("click", "Clicked image: " ++ element_text)
  else if element_type == "other" && py_in "search" (pyLower element_text) then
    ("search", "Clicked on search bar to start searching")
  else if element_type == "link" then
    if py_in "cart" page_url || element_text == "1" then
      ("navigate", "Navigated to shopping cart")
    else
      ("navigate", "Clicked link: " ++ element_text)
  else
    ("click", base_description)

/-- The `_parse_image_step` method: every optional field degrades to a
default, and the timestamp is attached only when the step id is a key of
the event map. -/
def _parse_image_step (step : Step) (events : List CapturedEvent)
    (step_number : Nat) : UserAction :=
  let page_context := step.pageContext.getD {}
  let click_context := step.clickContext.getD {}
  let hotspots := step.hotspots.getD []
  let page_url := page_context.url.getD ""
  let page_title := page_context.title.getD ""
  let element_text := click_context.text.getD ""
  let element_type := click_context.elementType.getD ""
  let css_selector := click_context.cssSelector.getD ""
  let hotspot_label :=
    match hotspots with
    | [] => ""
    | h :: _ => h.label.getD ""
  let timestamp : Option Int :=
    match step.id with
    | none => none
    | some sid =>
      match event_lookup events sid with
      | none => none
      | some e => e.timeMs
  let ad := _determine_action_type_and_description element_text element_type
    hotspot_label page_url
  { step_number := step_number
    action_type := ad.1
    description := ad.2
    element_text := some element_text
    element_type := some element_type
    page_url := some page_url
    page_title := some page_title
    timestamp := timestamp
    css_selector := some css_selector
    hotspot_label := some hotspot_label
    raw_data := some step }

/-- The step loop of `FlowParser.parse`: `CHAPTER` and `IMAGE` steps each
append one action and advance the counter; `VIDEO` (and any other) steps
are skipped without advancing it.  Both `_parse_...` helpers always return
an action, so the source's `if action:` truthiness test always passes. -/
def parseSteps (events : List CapturedEvent) : List Step → Nat → List UserAction
  | [], _ => []
  | step :: rest, step_number =>
    if step.type == some "CHAPTER" then
      _parse_chapter_step step step_number :: parseSteps events rest (step_number + 1)
    else if step.type == some "IMAGE" then
      _parse_image_step step events step_number :: parseSteps events rest (step_number + 1)
    else
      parseSteps events rest step_number

/-- The `parse` method: both the steps list and the captured-events list
default to `[]` when absent, and the running counter starts at 0. -/
def parse (flow_data : FlowData) : List UserAction :=
  let steps := flow_data.steps.getD []
  let captured_events := flow_data.capturedEvents.getD []
  parseSteps captured_events steps 0

end FlowParser

/-! ### Behavior classifier (`ai_summary_generator.py`)

`generate_insights` is modelled with the outcome of the external LLM call
passed in as an explicit `llm_response : Option String` (`none` models the
`except` fallback, `some text` a returned, already-decoded message
content).  All other computation of the method is mirrored directly. -/

namespace AISummaryGenerator

/-- Presence test `has_search` of `generate_insights`. -/
def has_search (actions : List UserAction) : Bool :=
  actions.any (fun a => a.action_type == "search")

/-- Presence test `has_customization` of `generate_insights` (membership
in `['select_option', 'browse_options']`). -/
def has_customization (actions : List UserAction) : Bool :=
  actions.any (fun a => (["select_option", "browse_options"] : List String).contains a.action_type)

/-- Presence test `has_purchase` of `generate_insights`. -/
def has_purchase (actions : List UserAction) : Bool :=
  actions.any (fun a => a.action_type == "add_to_cart")

/-- Presence test `completed` of `generate_insights`. -/
def completed (actions : List UserAction) : Bool :=
  actions.any (fun a => a.action_type == "complete")

/-- Presence test `declined_upsell` of `generate_insights`. -/
def declined_upsell (actions : List UserAction) : Bool :=
  actions.any (fun a => a.action_type == "decline_option")

/-- Composite `search_to_product` of `generate_insights`. -/
def search_to_product (actions : List UserAction) : Bool :=
  has_search actions && actions.any (fun a => a.action_type == "select_product")

/-- Composite `product_to_cart` of `generate_insights`. -/
def product_to_cart (actions : List UserAction) : Bool :=
  actions.any (fun a => a.action_type == "select_product") && has_purchase actions

/-- One update of the `action_types` histogram dict: increment in place,
or append a new key at the end (Python dicts preserve insertion order). -/
def bump_count (m : List (String × Nat)) (k : String) : List (String × Nat) :=
  if m.any (fun p => p.1 == k) then
    m.map (fun p => if p.1 == k then (p.1, p.2 + 1) else p)
  else
    m ++ [(k, 1)]

/-- The `action_types` histogram of `generate_insights`. -/
def action_breakdown (actions : List UserAction) : List (String × Nat) :=
  actions.foldl (fun m a => bump_count m a.action_type) []

/-- The `_classify_flow_type` method, mirrored branch by branch. -/
def _classify_flow_type (has_search has_customization has_purchase completed : Bool) :
    String :=
  if completed && has_purchase then
    if has_customization then "Successful E-commerce Conversion with Product Customization"
    else "Successful E-commerce Conversion"
  else if has_purchase then "E-commerce Conversion (Incomplete)"
  else if has_search && has_customization then "Product Research with Customization Exploration"
  else if has_search then "Product Discovery Flow"
  else "General Navigation Flow"

/-- The extraction triple returned by `_extract_brand_and_context` /
`_parse_extraction_response`. -/
structure ExtractionInfo where
  extracted_brand : String
  product_type : String
  task_type : String
deriving Repr, DecidableEq

/-- The `_parse_extraction_response` method: split the response on
newlines, strip each line, and let the last `BRAND:` / `PRODUCT_TYPE:` /
`TASK_TYPE:` line win, starting from the documented defaults. -/
def _parse_extraction_response (response_text : String) : ExtractionInfo :=
  let lines := (splitNl response_text.data).map (fun l => (⟨l⟩ : String))
  lines.foldl
    (fun acc rawLine =>
      let line := pyStrip rawLine
      if pyStartsWith line "BRAND:" then
        { acc with extracted_brand := pyStrip (pyReplace line "BRAND:" "") }
      else if pyStartsWith line "PRODUCT_TYPE:" then
        { acc with product_type := pyStrip (pyReplace line "PRODUCT_TYPE:" "") }
      else if pyStartsWith line "TASK_TYPE:" then
        { acc with task_type := pyStrip (pyReplace line "TASK_TYPE:" "") }
      else acc)
    { extracted_brand := "Unknown", product_type := "workflow", task_type := "digital workflow" }

/-- The `_extract_brand_and_context` method.  The actions and flow name
only feed the prompt sent to the external service, so the result depends
solely on the external response: `none` (the call raised) yields the
fallback triple, `some text` is stripped and parsed. -/
def _extract_brand_and_context (_actions : List UserAction) (_flow_name : String)
    (llm_response : Option String) : ExtractionInfo :=
  match llm_response with
  | none =>
    { extracted_brand := "Unknown", product_type := "workflow", task_type := "digital workflow" }
  | some text => _parse_extraction_response (pyStrip text)

/-- The `conversion_funnel` sub-dict of the insights. -/
structure ConversionFunnel where
  search_initiated : Bool
  product_selected : Bool
  customization_explored : Bool
  cart_conversion : Bool
  flow_completed : Bool
deriving Repr, DecidableEq

/-- The `user_behavior_indicators` sub-dict of the insights. -/
structure BehaviorIndicators where
  price_conscious : Bool
  exploration_oriented : Bool
  goal_oriented : Bool
  completion_rate : Nat
deriving Repr, DecidableEq

/-- The full dict returned by `generate_insights` (the `update` with the
extraction result adds the last three fields). -/
structure Insights where
  action_breakdown : List (String × Nat)
  conversion_funnel : ConversionFunnel
  user_behavior_indicators : BehaviorIndicators
  flow_classification : String
  extracted_brand : String
  product_type : String
  task_type : String
deriving Repr, DecidableEq

/-- The `generate_insights` method. -/
def generate_insights (actions : List UserAction) (flow_name : String)
    (llm_response : Option String) : Insights :=
  let extraction := _extract_brand_and_context actions flow_name llm_response
  { action_breakdown := action_breakdown actions
    conversion_funnel :=
      { search_initiated := has_search actions
        product_selected := search_to_product actions
        customization_explored := has_customization actions
        cart_conversion := product_to_cart actions
        flow_completed := completed actions }
    user_behavior_indicators :=
      { price_conscious := declined_upsell actions
        exploration_oriented := has_customization actions
        goal_oriented := search_to_product actions && product_to_cart actions
        completion_rate := if completed actions then 100 else 0 }
    flow_classification :=
      _classify_flow_type (has_search actions) (has_customization actions)
        (has_purchase actions) (completed actions)
    extracted_brand := extraction.extracted_brand
    product_type := extraction.product_type
    task_type := extraction.task_type }

end AISummaryGenerator

/-! ### Brand and task-context extraction (`social_image_generator.py`)

`_detect_brand_from_flow_name` runs eight regular expressions over the
lower-cased flow title.  Each of those patterns is a sequence drawn from:
a word boundary, a literal, one-or-more whitespace, and one-or-more word
characters (captured or not); consecutive repeatable atoms always have
disjoint character classes (and a literal following a repeatable atom
starts outside its class), so greedy maximal-munch matching without
backtracking computes exactly Python's `re.search` result for these
patterns.  The matcher below scans start positions left to right (only
position 0 for the one `^`-anchored pattern). -/

namespace SocialImageGenerator

/-- One atom of the regular expressions used by `_detect_brand_from_flow_name`. -/
inductive RTok where
  | b : RTok
  | lit : List Char → RTok
  | sp : RTok
  | wd : RTok
  | grp : RTok
deriving Repr, DecidableEq

/-- Word-boundary test between an optional previous character and the
rest of the subject (Python `\b`: exactly one side is a word character,
out-of-range counting as non-word). -/
def wordB (prev : Option Char) (s : List Char) : Bool :=
  (match prev with
   | some c => isWordChar c
   | none => false) !=
  (match s with
   | c :: _ => isWordChar c
   | [] => false)

/-- Previous-character bookkeeping after consuming a nonempty chunk. -/
def prevAfter (chunk : List Char) (prev : Option Char) : Option Char :=
  match chunk.getLast? with
  | some c => some c
  | none => prev

/-- Match a token sequence at the current position, returning `some cap`
on success (`cap` is the text of the single capture group, `[]` when the
pattern has none). -/
def mAt : List RTok → Option Char → List Char → List Char → Option (List Char)
  | [], _, _, cap => some cap
  | RTok.b :: ts, prev, s, cap =>
    if wordB prev s then mAt ts prev s cap else none
  | RTok.lit l :: ts, prev, s, cap =>
    if l.isPrefixOf s then mAt ts (prevAfter l prev) (s.drop l.length) cap else none
  | RTok.sp :: ts, prev, s, cap =>
    let w := s.takeWhile isSpaceChar
    if w.isEmpty then none
    else mAt ts (prevAfter w prev) (s.dropWhile isSpaceChar) cap
  | RTok.wd :: ts, prev, s, cap =>
    let w := s.takeWhile isWordChar
    if w.isEmpty then none
    else mAt ts (prevAfter w prev) (s.dropWhile isWordChar) cap
  | RTok.grp :: ts, prev, s, _cap =>
    let w := s.takeWhile isWordChar
    if w.isEmpty then none
    else mAt ts (prevAfter w prev) (s.dropWhile isWordChar) w

/-- Scan start positions left to right, like `re.search`. -/
def searchFrom (p : List RTok) : Option Char → List Char → Option (List Char)
  | prev, s =>
    match mAt p prev s [] with
    | some cap => some cap
    | none =>
      match s with
      | [] => none
      | c :: cs => searchFrom p (some c) cs

/-- `re.search` for one of the brand patterns; an anchored pattern (`^`)
is tried at position 0 only. -/
def rsearch (anchored : Bool) (p : List RTok) (s : List Char) : Option (List Char) :=
  if anchored then
    match mAt p none s [] with
    | some cap => some cap
    | none => none
  else
    searchFrom p none s

/-- The `brand_patterns` list of `_detect_brand_from_flow_name`, in source
order; the `Bool` records whether the pattern is `^`-anchored. -/
def brand_patterns : List (Bool × List RTok) :=
  [ (false, [RTok.b, RTok.lit "on".data, RTok.sp, RTok.grp, RTok.lit ".com".data, RTok.b]),
    (false, [RTok.b, RTok.lit "in".data, RTok.sp, RTok.grp, RTok.b]),
    (false, [RTok.b, RTok.lit "using".data, RTok.sp, RTok.grp, RTok.b]),
    (false, [RTok.b, RTok.lit "with".data, RTok.sp, RTok.grp, RTok.b]),
    (true, [RTok.grp, RTok.sp, RTok.wd]),
    (false, [RTok.b, RTok.grp, RTok.sp, RTok.lit "app".data, RTok.b]),
    (false, [RTok.b, RTok.grp, RTok.sp, RTok.lit "platform".data, RTok.b]),
    (false, [RTok.b, RTok.grp, RTok.sp, RTok.lit "dashboard".data, RTok.b]) ]

/-- Generic stopwords filtered out of a regex-captured brand candidate. -/
def generic_words : List String :=
  ["the", "your", "our", "this", "that", "new", "first"]

/-- Try the brand patterns in order on the lower-cased title; a match
whose title-cased capture is a stopword is skipped and the next pattern is
tried, exactly as the source's loop does. -/
def tryPatterns : List (Bool × List RTok) → List Char → Option String
  | [], _ => none
  | (anchored, p) :: ps, fl =>
    match rsearch anchored p fl with
    | some cap =>
      let brand_candidate : String := ⟨pyTitle cap⟩
      if generic_words.contains (pyLower brand_candidate) then tryPatterns ps fl
      else some brand_candidate
    | none => tryPatterns ps fl

/-- Fallback word scan of `_detect_brand_from_flow_name`: the first
whitespace-separated word of the original title whose first character is
upper-case, whose length exceeds 2, and whose lower-casing is not a
generic word. -/
def fallbackScan : List (List Char) → Option String
  | [] => none
  | w :: ws =>
    match w with
    | [] => fallbackScan ws
    | c :: _ =>
      if c.isUpper && w.length > 2 &&
          !(["add", "create", "setup", "your", "the", "how", "to"] : List String).contains
            (⟨pyLowerL w⟩ : String) then
        some ⟨w⟩
      else fallbackScan ws

/-- The `_detect_brand_from_flow_name` method. -/
def _detect_brand_from_flow_name (flow_name : String) : String :=
  let flow_lower := pyLowerL flow_name.data
  match tryPatterns brand_patterns flow_lower with
  | some brand => brand
  | none =>
    match fallbackScan (splitWs flow_name.data) with
    | some w => w
    | none => "Unknown"

/-- The `_extract_task_context` method: ordered keyword-group membership
tests over the lower-cased title, first group wins. -/
def _extract_task_context (flow_name : String) : String :=
  let flow_lower : String := pyLower flow_name
  if (["setup", "set up", "configure"] : List String).any (fun w => py_in w flow_lower) then
    "setup and configuration"
  else if (["create", "build", "design"] : List String).any (fun w => py_in w flow_lower) then
    "creation and design"
  else if (["workspace", "account", "profile"] : List String).any (fun w => py_in w flow_lower) then
    "workspace setup"
  else if (["dashboard", "analytics", "report"] : List String).any (fun w => py_in w flow_lower) then
    "analytics and reporting"
  else if (["meeting", "call", "schedule"] : List String).any (fun w => py_in w flow_lower) then
    "meeting and scheduling"
  else if (["project", "task", "workflow"] : List String).any (fun w => py_in w flow_lower) then
    "project management"
  else if (["team", "collaboration", "share"] : List String).any (fun w => py_in w flow_lower) then
    "team collaboration"
  else if (["cart", "shop", "buy", "purchase"] : List String).any (fun w => py_in w flow_lower) then
    "online shopping"
  else if (["onboard", "tutorial", "learn"] : List String).any (fun w => py_in w flow_lower) then
    "learning and onboarding"
  else
    "digital workflow"

end SocialImageGenerator

/-! ### Concrete inputs used in witnesses and counterexamples -/

/-- A minimal action with a given step number and action type. -/
def mkAction (n : Nat) (t : String) : UserAction :=
  { step_number := n, action_type := t, description := "action" }

/-- The concluding `CHAPTER` step of the demo trace. -/
def thankYouStep : Step :=
  { type := some "CHAPTER", title := some "Thank you for trying our demo!" }

/-- A trace consisting of the single concluding chapter step. -/
def thankYouFlow : FlowData :=
  { name := some "Demo Flow", steps := some [thankYouStep] }

/-- An `IMAGE` step whose only hotspot is labelled "Tap to search" and
whose click context is absent. -/
def tapToSearchStep : Step :=
  { type := some "IMAGE", id := some "step1",
    hotspots := some [{ label := some "Tap to search" }] }

/-- An `IMAGE` step labelled "Tap to search" with arbitrary id and page
context and no click context. -/
def tapStepGen (pid : Option String) (pc : Option PageContext) : Step :=
  { type := some "IMAGE"
    id := pid
    pageContext := pc
    hotspots := some [{ label := some "Tap to search" }] }

/-- A trace whose steps list is a single tap-to-search image step. -/
def tapFlowGen (nm : Option String) (pid : Option String) (pc : Option PageContext)
    (evs : Option (List CapturedEvent)) : FlowData :=
  { name := nm, steps := some [tapStepGen pid pc], capturedEvents := evs }

/-- A trace with the tap-to-search image step together with a
timestamped click event and a typing captured event. -/
def tapToSearchFlow : FlowData :=
  { name := some "Demo Flow"
    steps := some [tapToSearchStep]
    capturedEvents := some
      [ { clickId := some "step1", timeMs := some 1000 },
        { clickId := some "evt2", timeMs := some 2000,
          eventType := some "typing", value := some "scooter" } ] }

/-! ### Supporting lemmas -/

/-- An existential scan for one action type depends only on the sequence
of action types. -/
theorem any_type_eq (l : List UserAction) (t : String) :
    l.any (fun a => a.action_type == t) =
      (l.map (fun a => a.action_type)).any (fun x => x == t) := by
  induction l with
  | nil => rfl
  | cons a rest ih => simp [ih]

/-- An existential scan for a set of action types depends only on the
sequence of action types. -/
theorem any_type_mem (l : List UserAction) (ts : List String) :
    l.any (fun a => ts.contains a.action_type) =
      (l.map (fun a => a.action_type)).any (fun x => ts.contains x) := by
  induction l with
  | nil => rfl
  | cons a rest ih =>
    simp only [List.any_cons, List.map_cons]
    rw [ih]

/-- Both branches of `_parse_chapter_step` produce `action_type =
"navigate"`. -/
theorem chapter_action_type (s : Step) (n : Nat) :
    (FlowParser._parse_chapter_step s n).action_type = "navigate" := by
  simp only [FlowParser._parse_chapter_step]
  split <;> rfl

/-- Both branches of `_parse_chapter_step` keep the given step number. -/
theorem chapter_step_number (s : Step) (n : Nat) :
    (FlowParser._parse_chapter_step s n).step_number = n := by
  simp only [FlowParser._parse_chapter_step]
  split <;> rfl

/-- The action types the decoder can emit: a closed set of six values. -/
def emitted_types : List String :=
  ["navigate", "click", "search", "add_to_cart", "select_product", "select_option"]

/-- Action types the spec's enumeration mentions that the decoder can
never produce. -/
def never_emitted_types : List String :=
  ["complete", "type", "start", "browse_options", "decline_option", "navigate_cart", "action"]

/-- Every branch of `_determine_action_type_and_description` yields one of
the six emitted types. -/
theorem determine_fst_mem (et ety hl pu : String) :
    emitted_types.contains
      (FlowParser._determine_action_type_and_description et ety hl pu).1 = true := by
  unfold FlowParser._determine_action_type_and_description
  dsimp only
  repeat' split <;> try rfl

/-- The action type of a decoded `IMAGE` step is one of the six emitted
types. -/
theorem image_action_type_mem (s : Step) (evs : List CapturedEvent) (n : Nat) :
    emitted_types.contains ((FlowParser._parse_image_step s evs n).action_type) = true :=
  determine_fst_mem _ _ _ _

/-- Every action produced by the step loop has one of the six emitted
types. -/
theorem parseSteps_all_emitted (evs : List CapturedEvent) :
    ∀ (steps : List Step) (n : Nat),
      (FlowParser.parseSteps evs steps n).all
        (fun a => emitted_types.contains a.action_type) = true := by
  intro steps
  induction steps with
  | nil => intro n; rfl
  | cons s rest ih =>
    intro n
    unfold FlowParser.parseSteps
    split
    · simp only [List.all_cons, chapter_action_type, ih]
      rfl
    · split
      · simp only [List.all_cons, image_action_type_mem, ih]
        rfl
      · exact ih n

/-- A type from the emitted set is never in the never-emitted set. -/
theorem emitted_not_never (t : String) (h : emitted_types.contains t = true) :
    never_emitted_types.contains t = false := by
  have h3 : t ∈ emitted_types := by simpa using h
  fin_cases h3 <;> decide

/-- A type from the emitted set is never `"complete"`. -/
theorem emitted_not_complete (t : String) (h : emitted_types.contains t = true) :
    (t == "complete") = false := by
  have h3 : t ∈ emitted_types := by simpa using h
  fin_cases h3 <;> decide

/-- The step numbers produced by the step loop are the consecutive
integers starting at the initial counter value. -/
theorem parseSteps_step_numbers (evs : List CapturedEvent) :
    ∀ (steps : List Step) (n : Nat),
      (FlowParser.parseSteps evs steps n).map (fun a => a.step_number) =
        List.range' n (FlowParser.parseSteps evs steps n).length := by
  intro steps
  induction steps with
  | nil => intro n; rfl
  | cons s rest ih =>
    intro n
    unfold FlowParser.parseSteps
    split
    · simp only [List.map_cons, List.length_cons, List.range'_succ,
        chapter_step_number, ih]
    · split
      · simp only [List.map_cons, List.length_cons, List.range'_succ, ih]
        rfl
      · exact ih n

/-- Under absent purchase, `_classify_flow_type` avoids all three
conversion labels, whatever the other flags are. -/
theorem classify_without_purchase (hs hc c : Bool) :
    AISummaryGenerator._classify_flow_type hs hc false c ≠
        "Successful E-commerce Conversion with Product Customization" ∧
      AISummaryGenerator._classify_flow_type hs hc false c ≠
        "Successful E-commerce Conversion" ∧
      AISummaryGenerator._classify_flow_type hs hc false c ≠
        "E-commerce Conversion (Incomplete)" := by
  revert hs hc c
  decide

/-! ### The claims -/

/-- C1: for an action sequence whose types are, in order, `search`,
`select_product`, `select_option`, `add_to_cart`, `complete`, the
classifier returns the label "Successful E-commerce Conversion with
Product Customization", a completion rate of 100, and all five funnel
flags true (whatever the flow name and the external LLM response are). -/
theorem C1_classifier_success (actions : List UserAction) (flow_name : String)
    (llm_response : Option String)
    (h : actions.map (fun a => a.action_type) =
      ["search", "select_product", "select_option", "add_to_cart", "complete"]) :
    (AISummaryGenerator.generate_insights actions flow_name llm_response).flow_classification =
        "Successful E-commerce Conversion with Product Customization" ∧
      (AISummaryGenerator.generate_insights actions flow_name
          llm_response).user_behavior_indicators.completion_rate = 100 ∧
      (AISummaryGenerator.generate_insights actions flow_name llm_response).conversion_funnel =
        ⟨true, true, true, true, true⟩ := by
  have hs : AISummaryGenerator.has_search actions = true := by
    unfold AISummaryGenerator.has_search
    rw [any_type_eq, h]
    rfl
  have hc : AISummaryGenerator.has_customization actions = true := by
    unfold AISummaryGenerator.has_customization
    rw [any_type_mem, h]
    rfl
  have hp : AISummaryGenerator.has_purchase actions = true := by
    unfold AISummaryGenerator.has_purchase
    rw [any_type_eq, h]
    rfl
  have hdone : AISummaryGenerator.completed actions = true := by
    unfold AISummaryGenerator.completed
    rw [any_type_eq, h]
    rfl
  have hsel : actions.any (fun a => a.action_type == "select_product") = true := by
    rw [any_type_eq, h]
    rfl
  have hsp : AISummaryGenerator.search_to_product actions = true := by
    unfold AISummaryGenerator.search_to_product
    rw [hs, hsel]
    rfl
  have hpc : AISummaryGenerator.product_to_cart actions = true := by
    unfold AISummaryGenerator.product_to_cart
    rw [hsel, hp]
    rfl
  refine ⟨?_, ?_, ?_⟩ <;>
    simp [AISummaryGenerator.generate_insights, AISummaryGenerator._classify_flow_type,
      hs, hc, hp, hdone, hsp, hpc]

/-- C1 witness: the theorem applied to a concrete five-action sequence. -/
theorem C1_witness :
    ([mkAction 0 "search", mkAction 1 "select_product", mkAction 2 "select_option",
        mkAction 3 "add_to_cart", mkAction 4 "complete"].map (fun a => a.action_type) =
      ["search", "select_product", "select_option", "add_to_cart", "complete"]) ∧
      ((AISummaryGenerator.generate_insights
          [mkAction 0 "search", mkAction 1 "select_product", mkAction 2 "select_option",
            mkAction 3 "add_to_cart", mkAction 4 "complete"] "Demo Flow"
          none).flow_classification =
          "Successful E-commerce Conversion with Product Customization" ∧
        (AISummaryGenerator.generate_insights
          [mkAction 0 "search", mkAction 1 "select_product", mkAction 2 "select_option",
            mkAction 3 "add_to_cart", mkAction 4 "complete"] "Demo Flow"
          none).user_behavior_indicators.completion_rate = 100 ∧
        (AISummaryGenerator.generate_insights
          [mkAction 0 "search", mkAction 1 "select_product", mkAction 2 "select_option",
            mkAction 3 "add_to_cart", mkAction 4 "complete"] "Demo Flow"
          none).conversion_funnel = ⟨true, true, true, true, true⟩) :=
  ⟨rfl, C1_classifier_success _ "Demo Flow" none rfl⟩

/-- C2 counterexample: `generate_insights` is not a pure function of the
action sequence alone — two runs on the same (empty) sequence that see
different external LLM responses return different dicts, because the
extraction fields come from the external call. -/
theorem C2_counterexample :
    AISummaryGenerator.generate_insights [] "Demo Flow" (some "BRAND: Acme") ≠
      AISummaryGenerator.generate_insights [] "Demo Flow" none := by
  decide

/-- C2 amended: the Classification Result proper (histogram, funnel
flags, behavior indicators and classification label) is a pure
deterministic function of the action sequence: it is independent of the
flow name and of the external LLM response, so re-running on the same
sequence yields identical values for those fields. -/
theorem C2_pure_classification (actions : List UserAction) (fn1 fn2 : String)
    (r1 r2 : Option String) :
    (AISummaryGenerator.generate_insights actions fn1 r1).action_breakdown =
        (AISummaryGenerator.generate_insights actions fn2 r2).action_breakdown ∧
      (AISummaryGenerator.generate_insights actions fn1 r1).conversion_funnel =
        (AISummaryGenerator.generate_insights actions fn2 r2).conversion_funnel ∧
      (AISummaryGenerator.generate_insights actions fn1 r1).user_behavior_indicators =
        (AISummaryGenerator.generate_insights actions fn2 r2).user_behavior_indicators ∧
      (AISummaryGenerator.generate_insights actions fn1 r1).flow_classification =
        (AISummaryGenerator.generate_insights actions fn2 r2).flow_classification :=
  ⟨rfl, rfl, rfl, rfl⟩

/-- C3 counterexample: the chapter titled "Thank you for trying our
demo!" decodes to exactly one action, but its action type is never
`complete` (it is `navigate`). -/
theorem C3_counterexample :
    (FlowParser.parse thankYouFlow).length = 1 ∧
      (FlowParser.parse thankYouFlow).map (fun a => a.action_type) = ["navigate"] ∧
      (∀ a ∈ FlowParser.parse thankYouFlow, a.action_type ≠ "complete") := by
  refine ⟨rfl, rfl, ?_⟩
  decide

/-- C3 amended: a `CHAPTER` step whose title contains "thank you"
case-insensitively decodes to exactly one action with `action_type =
navigate` and description `Reached end screen: <title>`. -/
theorem C3_chapter_end_screen (step : Step) (n : Nat)
    (h : py_in "thank you" (pyLower (step.title.getD "")) = true) :
    FlowParser._parse_chapter_step step n =
      { step_number := n
        action_type := "navigate"
        description := "Reached end screen: " ++ step.title.getD ""
        raw_data := some step } := by
  simp only [FlowParser._parse_chapter_step, h]
  rfl

/-- C3 witness: the amended theorem applied to the demo title. -/
theorem C3_witness :
    py_in "thank you" (pyLower (thankYouStep.title.getD "")) = true ∧
      FlowParser._parse_chapter_step thankYouStep 0 =
        { step_number := 0
          action_type := "navigate"
          description := "Reached end screen: Thank you for trying our demo!"
          raw_data := some thankYouStep } :=
  ⟨by decide, C3_chapter_end_screen thankYouStep 0 (by decide)⟩

/-- C4 counterexample: on the trace with one `IMAGE` step labelled
"Tap to search" and a typing captured event, the decoder emits exactly
one action (not two), its type is `click` (not `search`), and no `type`
action exists. -/
theorem C4_counterexample :
    (FlowParser.parse tapToSearchFlow).length = 1 ∧
      (FlowParser.parse tapToSearchFlow).map (fun a => a.action_type) = ["click"] ∧
      (∀ a ∈ FlowParser.parse tapToSearchFlow, a.action_type ≠ "type") := by
  refine ⟨rfl, rfl, ?_⟩
  decide

/-- C4 amended: for every trace whose steps list is a single `IMAGE` step
with first hotspot label "Tap to search" and no click context, the
decoder emits exactly one action; the typing captured event is ignored,
the hotspot label never reaches the type classifier, so the action has
`action_type = click` and the hotspot label as its description. -/
theorem C4_single_click_action (nm : Option String) (pid : Option String)
    (pc : Option PageContext) (evs : Option (List CapturedEvent)) :
    (FlowParser.parse (tapFlowGen nm pid pc evs)).length = 1 ∧
      (FlowParser.parse (tapFlowGen nm pid pc evs)).map (fun a => a.action_type) =
        ["click"] ∧
      (FlowParser.parse (tapFlowGen nm pid pc evs)).map (fun a => a.description) =
        ["Tap to search"] :=
  ⟨rfl, rfl, rfl⟩

/-- C5 counterexample: the decoded demo trace's first action carries
`step_number = 0`, so step numbers are not positive and the counter does
not start at 1. -/
theorem C5_counterexample :
    (FlowParser.parse thankYouFlow).map (fun a => a.step_number) = [0] ∧
      ¬(∀ a ∈ FlowParser.parse thankYouFlow, 0 < a.step_number) := by
  refine ⟨rfl, ?_⟩
  decide

/-- C5 amended: for every raw trace the decoded step numbers are the
consecutive integers 0, 1, 2, ... — a running counter starting at 0 —
hence unique and strictly increasing (in particular monotonically
non-decreasing) in emission order. -/
theorem C5_step_numbers (fd : FlowData) :
    (FlowParser.parse fd).map (fun a => a.step_number) =
        List.range (FlowParser.parse fd).length ∧
      List.Pairwise (· < ·) ((FlowParser.parse fd).map (fun a => a.step_number)) := by
  have h := parseSteps_step_numbers (fd.capturedEvents.getD []) (fd.steps.getD []) 0
  constructor
  · rw [List.range_eq_range']
    exact h
  · rw [FlowParser.parse]
    rw [h]
    exact List.pairwise_lt_range' 0 _

/-- C6: when no action has type `add_to_cart`, the classification label
is none of the three conversion labels, whatever the flow name and
external response are. -/
theorem C6_no_purchase_labels (actions : List UserAction) (fn : String)
    (r : Option String) (h : ∀ a ∈ actions, a.action_type ≠ "add_to_cart") :
    (AISummaryGenerator.generate_insights actions fn r).flow_classification ≠
        "Successful E-commerce Conversion with Product Customization" ∧
      (AISummaryGenerator.generate_insights actions fn r).flow_classification ≠
        "Successful E-commerce Conversion" ∧
      (AISummaryGenerator.generate_insights actions fn r).flow_classification ≠
        "E-commerce Conversion (Incomplete)" := by
  have hp : AISummaryGenerator.has_purchase actions = false := by
    simp only [AISummaryGenerator.has_purchase, List.any_eq_false]
    intro a ha
    simpa using h a ha
  have hEq : (AISummaryGenerator.generate_insights actions fn r).flow_classification =
      AISummaryGenerator._classify_flow_type (AISummaryGenerator.has_search actions)
        (AISummaryGenerator.has_customization actions)
        (AISummaryGenerator.has_purchase actions)
        (AISummaryGenerator.completed actions) := rfl
  rw [hEq, hp]
  exact classify_without_purchase _ _ _

/-- C6 witness: the theorem applied to a one-action navigation sequence. -/
theorem C6_witness :
    (∀ a ∈ [mkAction 0 "navigate"], a.action_type ≠ "add_to_cart") ∧
      ((AISummaryGenerator.generate_insights [mkAction 0 "navigate"] "Demo Flow"
            none).flow_classification ≠
          "Successful E-commerce Conversion with Product Customization" ∧
        (AISummaryGenerator.generate_insights [mkAction 0 "navigate"] "Demo Flow"
            none).flow_classification ≠
          "Successful E-commerce Conversion" ∧
        (AISummaryGenerator.generate_insights [mkAction 0 "navigate"] "Demo Flow"
            none).flow_classification ≠
          "E-commerce Conversion (Incomplete)") :=
  ⟨by decide, C6_no_purchase_labels [mkAction 0 "navigate"] "Demo Flow" none (by decide)⟩

/-- C7 counterexample: on a trace whose steps collection is structurally
absent the decoder does not raise anything — no `MalformedTraceError`
exists anywhere in the code — it substitutes the empty list and returns
normally with the empty action sequence, exactly as it does for an
explicitly empty steps list. -/
theorem C7_counterexample :
    FlowParser.parse { name := some "Demo Flow", steps := none, capturedEvents := some [] } = [] ∧
      FlowParser.parse { name := some "Demo Flow", steps := none, capturedEvents := some [] } =
        FlowParser.parse { name := some "Demo Flow", steps := some [], capturedEvents := some [] } :=
  ⟨rfl, rfl⟩

/-- C7 amended: the decoder never raises at all.  A structurally absent
steps collection degrades to the empty list (empty action sequence), and
a step record missing every optional field is decoded with defaults
(empty strings, no timestamp) instead of failing. -/
theorem C7_never_raises (nm : Option String) (evs : Option (List CapturedEvent)) :
    FlowParser.parse { name := nm, steps := none, capturedEvents := evs } = [] ∧
      FlowParser.parse { name := nm, steps := some [], capturedEvents := evs } = [] ∧
      FlowParser.parse
          { name := nm, steps := some [{ type := some "IMAGE" }], capturedEvents := evs } =
        [{ step_number := 0
           action_type := "click"
           description := "Performed action"
           element_text := some ""
           element_type := some ""
           page_url := some ""
           page_title := some ""
           timestamp := none
           css_selector := some ""
           hotspot_label := some ""
           raw_data := some { type := some "IMAGE" } }] :=
  ⟨rfl, rfl, rfl⟩

/-- C8: the extractor maps the title "Setting up your Workspace in
Notion" to brand "Notion" (first matching regex pattern, title-cased,
not a stopword) and task context "workspace setup" (first matching
keyword group). -/
theorem C8_extractor :
    SocialImageGenerator._detect_brand_from_flow_name "Setting up your Workspace in Notion" =
        "Notion" ∧
      SocialImageGenerator._extract_task_context "Setting up your Workspace in Notion" =
        "workspace setup" := by
  constructor
  · decide
  · decide

/-- C9: on the empty action sequence the classifier succeeds with an
empty histogram, all funnel flags and behavior booleans false, a
completion rate of 0 and the label "General Navigation Flow". -/
theorem C9_empty_sequence (fn : String) (r : Option String) :
    (AISummaryGenerator.generate_insights [] fn r).action_breakdown = [] ∧
      (AISummaryGenerator.generate_insights [] fn r).conversion_funnel =
        ⟨false, false, false, false, false⟩ ∧
      (AISummaryGenerator.generate_insights [] fn r).user_behavior_indicators =
        ⟨false, false, false, 0⟩ ∧
      (AISummaryGenerator.generate_insights [] fn r).flow_classification =
        "General Navigation Flow" :=
  ⟨rfl, rfl, rfl, rfl⟩

/-- C10: every action the decoder produces has its type in the closed
six-element set, never one of the seven types the decoder cannot emit;
consequently on decoded traces the classifier's `flow_completed` flag is
always false and the completion rate is always 0 (never 100). -/
theorem C10_closed_action_types (fd : FlowData) (fn : String) (r : Option String) :
    ((FlowParser.parse fd).all (fun a => emitted_types.contains a.action_type) = true) ∧
      ((FlowParser.parse fd).all
        (fun a => !(never_emitted_types.contains a.action_type)) = true) ∧
      (AISummaryGenerator.generate_insights (FlowParser.parse fd) fn
          r).conversion_funnel.flow_completed = false ∧
      (AISummaryGenerator.generate_insights (FlowParser.parse fd) fn
          r).user_behavior_indicators.completion_rate = 0 := by
  have hall : (FlowParser.parse fd).all
      (fun a => emitted_types.contains a.action_type) = true :=
    parseSteps_all_emitted (fd.capturedEvents.getD []) (fd.steps.getD []) 0
  have hdone : AISummaryGenerator.completed (FlowParser.parse fd) = false := by
    simp only [AISummaryGenerator.completed, List.any_eq_false]
    intro a ha
    have hmem := List.all_eq_true.mp hall a ha
    simp [emitted_not_complete _ hmem]
  refine ⟨hall, ?_, ?_, ?_⟩
  · rw [List.all_eq_true]
    intro a ha
    have hmem := List.all_eq_true.mp hall a ha
    simpa using emitted_not_never a.action_type hmem
  · have hEq : (AISummaryGenerator.generate_insights (FlowParser.parse fd) fn
        r).conversion_funnel.flow_completed =
        AISummaryGenerator.completed (FlowParser.parse fd) := rfl
    rw [hEq, hdone]
  · have hEq : (AISummaryGenerator.generate_insights (FlowParser.parse fd) fn
        r).user_behavior_indicators.completion_rate =
        if AISummaryGenerator.completed (FlowParser.parse fd) then 100 else 0 := rfl
    rw [hEq, hdone]
    rfl
